import Mathlib

/-!
Shallow embedding of the test database harness implemented in
`src/tests/helpers/database.ts`, together with theorems settling the
frozen claims about it.

Embedded operations:

* `getGlobalPool` — the lazily initialised global connection pool
  accessor (source lines 65–85).  The mutable module variable
  `globalPool` is threaded explicitly; the `DATABASE_URL` hostname and
  the outcome of the liveness round trip (`SELECT 1`) are inputs.
* `withDatabaseLock` — the deadlock-retry wrapper (source lines 99–116).
  The wrapped operation is modelled by the list of outcomes of its
  successive invocations (each retry reruns the operation from scratch),
  and the `Math.random()` draws feeding the backoff are an explicit
  input stream of rationals in `[0, 1)`.
* `SETUP_STATEMENTS`, `createTestDatabase`, `cleanup` — the provisioning
  DDL and the per-test cleanup closure (source lines 125–222), run
  against an explicit relational state `DbState` by a small semantics
  `execStmt` of exactly the statement forms the harness issues.
  Server-side failures that the model cannot derive from the state
  (deadlocks, timeouts, a missing extension, connection loss) are
  injected through an environment `StmtEnv` giving, per statement
  index, the error that statement dies with, if any.

Errors carry the optional `code` property the source reads via
`(error as { code?: string }).code`; an absent code models a JavaScript
error without that property.
-/

/-- Database/driver error as observed by the harness: the optional
`code` property (for example `"40P01"` for a deadlock) and a message. -/
structure PgError where
  code : Option String
  message : String
deriving DecidableEq, Repr

/-- Failure-injection environment for a sequence of SQL statements: for
statement index `k`, `env k = some e` means the server aborts that
statement with error `e` (deadlock, statement timeout, missing
extension, lost connection, ...); `none` means the statement runs and
its outcome is determined by the modelled state semantics. -/
def StmtEnv : Type := Nat → Option PgError

/-- Environment injecting no failures at all. -/
def envNone : StmtEnv := fun _ => none

/-- TLS mode chosen by `getGlobalPool`: `ssl: false` for the two
recognised local hostnames, `ssl: { rejectUnauthorized: false }`
otherwise (source lines 69–74). -/
inductive SslMode
  | disabled
  | rejectUnauthorizedFalse
deriving DecidableEq, Repr

/-- Connection pool settings, from the constant `DB_CONFIG`
(source lines 39–47), with the nested `connection` object flattened. -/
structure DbConfig where
  max : Nat
  idle_timeout : Nat
  max_lifetime : Nat
  application_name : String
  statement_timeout : Nat
deriving DecidableEq, Repr

/-- The literal `DB_CONFIG` constant of the source. -/
def DB_CONFIG : DbConfig :=
  { max := 1
    idle_timeout := 0
    max_lifetime := 0
    application_name := "test-pool"
    statement_timeout := 30000 }

/-- Connection pool as constructed by `postgres(DATABASE_URL, ...)`:
the target hostname, the spread `DB_CONFIG`, and the selected TLS
mode. -/
structure Pool where
  hostname : String
  config : DbConfig
  ssl : SslMode
deriving DecidableEq, Repr

/-- Pool construction of source lines 68–75: `isLocalhost` holds
exactly when `url.hostname` is the literal string `"localhost"` or
`"127.0.0.1"`, and it alone selects the TLS mode. -/
def postgresConnect (hostname : String) : Pool :=
  let isLocalhost := hostname == "localhost" || hostname == "127.0.0.1"
  { hostname := hostname
    config := DB_CONFIG
    ssl := if isLocalhost then .disabled else .rejectUnauthorizedFalse }

deriving instance DecidableEq for Except

/-- Result of one call to `getGlobalPool`: the value returned or error
thrown, and the value of the module variable `globalPool` after the
call. -/
structure PoolCallOutcome where
  result : Except PgError Pool
  globalPool : Option Pool
deriving DecidableEq, Repr

/-- The accessor `getGlobalPool` (source lines 65–85).  `hostname` is
`url.hostname` of `DATABASE_URL`; `livenessFailure` is the outcome of
the `SELECT 1` round trip issued on a freshly constructed pool (`none`
if it succeeds, `some e` if it throws `e`); `globalPool` is the module
variable before the call.  An existing pool is returned unchecked.  On
the slow path the variable is assigned the new pool *before* the
liveness check, and the catch block only logs and rethrows, so a failed
check leaves the variable pointing at the new pool. -/
def getGlobalPool (hostname : String) (livenessFailure : Option PgError)
    (globalPool : Option Pool) : PoolCallOutcome :=
  match globalPool with
  | some pool => { result := .ok pool, globalPool := some pool }
  | none =>
    let pool := postgresConnect hostname
    match livenessFailure with
    | none => { result := .ok pool, globalPool := some pool }
    | some e => { result := .error e, globalPool := some pool }

/-- The wrapper `withDatabaseLock` (source lines 99–116) applied to an
operation whose successive from-scratch invocations yield the outcomes
in `outcomes`, with `draws` the stream of `Math.random()` values.  An
outcome whose error code is `"40P01"` triggers a backoff of
`draw * 1000` milliseconds followed by a recursive retry; any other
outcome (success, or an error with a different or absent code) is
returned at once.  The result pairs the final outcome with the list of
backoff delays applied, in order; `none` means the modelled streams ran
out while the wrapper was still retrying. -/
def withDatabaseLock {α : Type} :
    List (Except PgError α) → List ℚ → Option (Except PgError α × List ℚ)
  | [], _ => none
  | .ok a :: _, _ => some (.ok a, [])
  | .error e :: rest, draws =>
    if e.code = some "40P01" then
      match draws with
      | [] => none
      | r :: rs =>
        match withDatabaseLock rest rs with
        | none => none
        | some (res, ds) => some (res, r * 1000 :: ds)
    else
      some (.error e, [])

/-- Column of a `CREATE TABLE` statement: name, SQL type, and the
declared constraints/default. -/
structure ColumnSpec where
  name : String
  colType : String
  primaryKey : Bool := false
  notNull : Bool := false
  unique : Bool := false
  hasDefault : Bool := false
deriving DecidableEq, Repr

/-- Table-level foreign key constraint (`CONSTRAINT ... FOREIGN KEY ...
REFERENCES ... ON DELETE CASCADE`). -/
structure ForeignKey where
  name : String
  column : String
  refSchema : String
  refTable : String
  onDeleteCascade : Bool
deriving DecidableEq, Repr

/-- Declared shape of a table. -/
structure TableSpec where
  name : String
  columns : List ColumnSpec
  foreignKeys : List ForeignKey
deriving DecidableEq, Repr

/-- Stored row: one optional text-encoded value per column (`none` is
SQL NULL). -/
abbrev Row := List (Option String)

/-- Table instance living in a schema: its declared shape and its
current rows. -/
structure Table where
  schemaName : String
  spec : TableSpec
  rows : List Row
deriving DecidableEq, Repr

/-- Value of the `session_replication_role` setting; `SET
session_replication_role = default` resets it to `origin`, the server
default, and `replica` disables ordinary triggers and referential
integrity enforcement. -/
inductive ReplicationRole
  | origin
  | replica
  | localRole
deriving DecidableEq, Repr

/-- Relational state the harness manipulates: existing schemas, the
tables with their rows, the session search path, installed extensions,
and the session replication role of the single pooled connection. -/
structure DbState where
  schemas : List String
  tables : List Table
  searchPath : List String
  extensions : List String
  sessionReplicationRole : ReplicationRole
deriving DecidableEq, Repr

/-- Test whether a table is the one named `sch.n`. -/
def tableKeyIs (sch n : String) (t : Table) : Bool :=
  decide (t.schemaName = sch ∧ t.spec.name = n)

/-- Qualified name of a table. -/
def tableKey (t : Table) : String × String :=
  (t.schemaName, t.spec.name)

/-- Look up the table named `sch.n`. -/
def lookupTable (s : DbState) (sch n : String) : Option Table :=
  s.tables.find? (tableKeyIs sch n)

/-- Whether the table named `sch.n` exists. -/
def hasTable (s : DbState) (sch n : String) : Bool :=
  s.tables.any (tableKeyIs sch n)

/-- Rows of the table named `sch.n`, when it exists. -/
def rowsOf (s : DbState) (sch n : String) : Option (List Row) :=
  (lookupTable s sch n).map Table.rows

/-- Declared shape of the table named `sch.n`, when it exists. -/
def specOf (s : DbState) (sch n : String) : Option TableSpec :=
  (lookupTable s sch n).map Table.spec

/-- Statement forms issued by the harness, one constructor per SQL
statement shape appearing in `SETUP_STATEMENTS` and `cleanup`. -/
inductive Stmt
  | dropSchemaIfExists (name : String)
  | createSchema (name : String)
  | setSearchPath (path : List String)
  | createExtensionIfNotExists (extName schemaName : String)
  | createTable (schemaName : String) (spec : TableSpec)
  | setSessionReplicationRole (role : ReplicationRole)
  | truncateCascade (targets : List (String × String))
deriving DecidableEq, Repr

/-- Tables holding a foreign key into a table already marked for
truncation, and not yet marked themselves (one expansion step of
`TRUNCATE ... CASCADE`). -/
def referencingTables (tables : List Table) (acc : List (String × String)) :
    List (String × String) :=
  (tables.filter (fun t =>
    decide (tableKey t ∉ acc) &&
    t.spec.foreignKeys.any (fun fk => decide ((fk.refSchema, fk.refTable) ∈ acc)))).map tableKey

/-- Fuelled fixpoint of `referencingTables`; the fuel `tables.length`
used by `truncateClosure` suffices since each round adds a new table. -/
def truncClosureAux (tables : List Table) : Nat → List (String × String) → List (String × String)
  | 0, acc => acc
  | n + 1, acc =>
    let more := referencingTables tables acc
    if more.isEmpty then acc else truncClosureAux tables n (acc ++ more)

/-- Set of tables emptied by `TRUNCATE targets CASCADE`: the listed
tables plus, transitively, every table referencing one of them. -/
def truncateClosure (tables : List Table) (targets : List (String × String)) :
    List (String × String) :=
  truncClosureAux tables tables.length targets

/-- Semantics of one statement against the relational state, following
PostgreSQL behaviour for exactly the statement forms the harness
issues: `DROP SCHEMA IF EXISTS ... CASCADE` also drops the schema
tables and never fails; `CREATE SCHEMA` fails on a duplicate;
`CREATE EXTENSION IF NOT EXISTS` is idempotent; `CREATE TABLE` fails if
the schema is missing or the table already exists, and creates it
empty; `TRUNCATE ... CASCADE` fails if a listed table is missing and
otherwise empties the listed tables and all tables referencing them;
the two `SET` forms update session settings and do not fail. -/
def execStmt : Stmt → DbState → Except PgError DbState
  | .dropSchemaIfExists n, s =>
    .ok { s with
      schemas := s.schemas.filter (fun m => decide (m ≠ n))
      tables := s.tables.filter (fun t => decide (t.schemaName ≠ n)) }
  | .createSchema n, s =>
    if n ∈ s.schemas then .error { code := some "42P06", message := "schema already exists" }
    else .ok { s with schemas := s.schemas ++ [n] }
  | .setSearchPath p, s => .ok { s with searchPath := p }
  | .createExtensionIfNotExists extName _schemaName, s =>
    if extName ∈ s.extensions then .ok s
    else .ok { s with extensions := s.extensions ++ [extName] }
  | .createTable sch spec, s =>
    if sch ∉ s.schemas then .error { code := some "3F000", message := "schema does not exist" }
    else if s.tables.any (tableKeyIs sch spec.name) then
      .error { code := some "42P07", message := "relation already exists" }
    else .ok { s with tables := s.tables ++ [{ schemaName := sch, spec := spec, rows := [] }] }
  | .setSessionReplicationRole r, s => .ok { s with sessionReplicationRole := r }
  | .truncateCascade targets, s =>
    if targets.all (fun q => s.tables.any (tableKeyIs q.1 q.2)) then
      let cl := truncateClosure s.tables targets
      .ok { s with tables :=
        s.tables.map (fun t => if tableKey t ∈ cl then { t with rows := [] } else t) }
    else .error { code := some "42P01", message := "relation does not exist" }

/-- Run statement number `k` under the failure environment: an injected
server-side error pre-empts the modelled semantics. -/
def stepEnv (env : StmtEnv) (k : Nat) (st : Stmt) (s : DbState) : Except PgError DbState :=
  match env k with
  | some e => .error e
  | none => execStmt st s

/-- Run a statement sequence, numbering statements from `k`, stopping
at the first error. -/
def execStmtsEnv (env : StmtEnv) : Nat → List Stmt → DbState → Except PgError DbState
  | _, [], s => .ok s
  | k, st :: rest, s =>
    match stepEnv env k st s with
    | .ok s2 => execStmtsEnv env (k + 1) rest s2
    | .error e => .error e

/-- Failure-free run of a statement sequence (the modelled semantics
only). -/
def execStmtsList : List Stmt → DbState → Except PgError DbState
  | [], s => .ok s
  | st :: rest, s =>
    match execStmt st s with
    | .ok s2 => execStmtsList rest s2
    | .error e => .error e

/-- Run a statement sequence outside any transaction: on an error the
effects of the earlier statements are kept; the result is the state
reached together with the error thrown, if any. -/
def execStmtsProgress (env : StmtEnv) : Nat → List Stmt → DbState → DbState × Option PgError
  | _, [], s => (s, none)
  | k, st :: rest, s =>
    match stepEnv env k st s with
    | .ok s2 => execStmtsProgress env (k + 1) rest s2
    | .error e => (s, some e)

/-- Semantics of `sql.begin`: run the statements inside one
transaction; on success the new state is committed, on any failure the
transaction aborts and the caller-visible state is the state from
before the transaction, with the error rethrown. -/
def sqlBegin (env : StmtEnv) (stmts : List Stmt) (s : DbState) :
    Except PgError DbState × DbState :=
  match execStmtsEnv env 0 stmts s with
  | .ok s2 => (.ok s2, s2)
  | .error e => (.error e, s)

/-- Declared shape of `auth.users` as written in
`SETUP_STATEMENTS.createTables` (source lines 135–142).  Note: the DDL
declares `email TEXT NOT NULL` and `username TEXT` with no `UNIQUE`
constraint on either column. -/
def usersTableSpec : TableSpec :=
  { name := "users"
    columns :=
      [ { name := "id", colType := "UUID", primaryKey := true }
      , { name := "email", colType := "TEXT", notNull := true }
      , { name := "username", colType := "TEXT" }
      , { name := "created_at", colType := "TIMESTAMP WITH TIME ZONE",
          notNull := true, hasDefault := true }
      , { name := "updated_at", colType := "TIMESTAMP WITH TIME ZONE",
          notNull := true, hasDefault := true }
      , { name := "profile_image_url", colType := "TEXT" } ]
    foreignKeys := [] }

/-- Declared shape of `auth.content` (source lines 143–154). -/
def contentTableSpec : TableSpec :=
  { name := "content"
    columns :=
      [ { name := "id", colType := "UUID", primaryKey := true, hasDefault := true }
      , { name := "user_id", colType := "UUID", notNull := true }
      , { name := "title", colType := "TEXT", notNull := true }
      , { name := "body", colType := "TEXT", notNull := true }
      , { name := "created_at", colType := "TIMESTAMP WITH TIME ZONE", hasDefault := true }
      , { name := "updated_at", colType := "TIMESTAMP WITH TIME ZONE", hasDefault := true }
      , { name := "status", colType := "TEXT", hasDefault := true } ]
    foreignKeys :=
      [ { name := "content_user_id_fkey", column := "user_id",
          refSchema := "auth", refTable := "users", onDeleteCascade := true } ] }

/-- Declared shape of `test.documents` (source lines 155–160). -/
def documentsTableSpec : TableSpec :=
  { name := "documents"
    columns :=
      [ { name := "id", colType := "BIGSERIAL", primaryKey := true, hasDefault := true }
      , { name := "content", colType := "TEXT" }
      , { name := "metadata", colType := "JSONB", hasDefault := true }
      , { name := "embedding", colType := "vector(1536)" } ]
    foreignKeys := [] }

/-- The `createSchemas` half of `SETUP_STATEMENTS`
(source lines 126–133), in source order. -/
def SETUP_STATEMENTS.createSchemas : List Stmt :=
  [ .dropSchemaIfExists "auth"
  , .dropSchemaIfExists "test"
  , .createSchema "auth"
  , .createSchema "test"
  , .setSearchPath ["auth", "test", "public"]
  , .createExtensionIfNotExists "vector" "public" ]

/-- The `createTables` half of `SETUP_STATEMENTS`
(source lines 134–161), in source order. -/
def SETUP_STATEMENTS.createTables : List Stmt :=
  [ .createTable "auth" usersTableSpec
  , .createTable "auth" contentTableSpec
  , .createTable "test" documentsTableSpec ]

/-- Full statement sequence run by `createTestDatabase` inside
`sql.begin`: first all of `createSchemas`, then all of `createTables`
(source lines 190–200). -/
def provisionStmts : List Stmt :=
  SETUP_STATEMENTS.createSchemas ++ SETUP_STATEMENTS.createTables

/-- Result of a call to `createTestDatabase`: the value returned to the
caller (`.ok` with the committed state standing for the `{ db, cleanup }`
handle, `.error` for the rethrown failure) paired with the applied
backoff delays, `none` when the modelled attempt/draw streams ran out
mid-retry; the database state visible after the call; and the log lines
that interpolate the test identifier. -/
structure ProvisionOutput where
  result : Option (Except PgError DbState × List ℚ)
  dbState : DbState
  log : List String
deriving DecidableEq, Repr

/-- The provisioner `createTestDatabase` (source lines 179–222).  The
whole operation is passed to `withDatabaseLock`; each retry reruns it
from scratch against the same pre-state `s`, because a failed attempt
aborts its `sql.begin` transaction.  `envs` gives the failure
environment of each successive attempt and `draws` the backoff stream;
`testId` reaches only the log strings. -/
def createTestDatabase (envs : List StmtEnv) (draws : List ℚ) (testId : String)
    (s : DbState) : ProvisionOutput :=
  let outcome :=
    withDatabaseLock (envs.map (fun env => (sqlBegin env provisionStmts s).1)) draws
  { result := outcome
    dbState :=
      match outcome with
      | some (.ok s2, _) => s2
      | _ => s
    log := ["Starting test database setup for test " ++ testId ++ "..."] }

/-- Tables listed by the `TRUNCATE` of the cleanup closure, in source
order: `auth.content`, `auth.users`, `test.documents`. -/
def cleanupTargets : List (String × String) :=
  [("auth", "content"), ("auth", "users"), ("test", "documents")]

/-- Statement sequence issued by the `cleanup` closure returned by
`createTestDatabase` (source lines 204–214), in source order. -/
def cleanupStmts : List Stmt :=
  [ .setSessionReplicationRole .replica
  , .truncateCascade cleanupTargets
  , .setSessionReplicationRole .origin ]

/-- The `cleanup` closure (source lines 204–214).  The three statements
run on the shared connection outside any transaction, so the effects of
the statements before a failing one persist.  The surrounding
`try`/`catch` swallows any error: the closure always returns normally,
with a thrown error reported only through the logged second
component. -/
def cleanup (env : StmtEnv) (s : DbState) : DbState × Option PgError :=
  execStmtsProgress env 0 cleanupStmts s

/-- Whether some inserted value violates `NOT NULL` (a primary key
column is implicitly not null; a null value is allowed when the column
has a default that would fill it). -/
def nullViolation (cols : List ColumnSpec) (row : Row) : Bool :=
  (List.zip cols row).any fun p =>
    (p.1.primaryKey || p.1.notNull) && !p.1.hasDefault && p.2.isNone

/-- Whether some inserted non-null value collides with an existing row
on a `PRIMARY KEY` or `UNIQUE` column (null values never collide). -/
def dupViolation (cols : List ColumnSpec) (rows : List Row) (row : Row) : Bool :=
  (List.range cols.length).any fun i =>
    match cols.get? i, row.getD i none with
    | some c, some v =>
      (c.primaryKey || c.unique) && rows.any (fun r => r.getD i none == some v)
    | _, _ => false

/-- PostgreSQL semantics of inserting one row into a table, restricted
to the declared column constraints: the row must match the column
count, satisfy `NOT NULL` (error `23502`) and not collide on a primary
key or unique column (error `23505`). -/
def insertRow (t : Table) (row : Row) : Except PgError Table :=
  if row.length ≠ t.spec.columns.length then
    .error { code := none, message := "column count mismatch" }
  else if nullViolation t.spec.columns row then
    .error { code := some "23502", message := "not-null constraint violation" }
  else if dupViolation t.spec.columns t.rows row then
    .error { code := some "23505", message := "unique constraint violation" }
  else .ok { t with rows := t.rows ++ [row] }

/-- Shape of the application users table declared in `db/schema.ts`
(reproduced in the repository database walkthrough document): the
module the harness imports as `@/db/schema` and hands to `drizzle`.
There `email` is `.notNull().unique()` and `username` is `.unique()`,
unlike the harness DDL `usersTableSpec`. -/
def drizzleUsersSpec : TableSpec :=
  { name := "users"
    columns :=
      [ { name := "id", colType := "UUID", primaryKey := true, hasDefault := true }
      , { name := "email", colType := "TEXT", notNull := true, unique := true }
      , { name := "username", colType := "TEXT", unique := true }
      , { name := "created_at", colType := "TIMESTAMP WITH TIME ZONE",
          notNull := true, hasDefault := true }
      , { name := "updated_at", colType := "TIMESTAMP WITH TIME ZONE",
          notNull := true, hasDefault := true }
      , { name := "profile_image_url", colType := "TEXT" } ]
    foreignKeys := [] }

/-- Split a character list at every dot (helper for parsing dotted-quad
hostnames; `cur` holds the characters of the current segment in
reverse). -/
def splitDotAux : List Char → List Char → List String
  | [], cur => [String.mk cur.reverse]
  | c :: rest, cur =>
    if c = '.' then String.mk cur.reverse :: splitDotAux rest []
    else splitDotAux rest (c :: cur)

/-- Parse a non-empty digit string as a decimal number. -/
def natOfDigits : List Char → Nat → Option Nat
  | [], acc => some acc
  | c :: rest, acc =>
    if c.isDigit then natOfDigits rest (acc * 10 + (c.toNat - 48)) else none

/-- Whether a string is a decimal number between 0 and 255, as an IPv4
octet. -/
def isIPv4Octet (s : String) : Bool :=
  match s.data with
  | [] => false
  | cs =>
    match natOfDigits cs 0 with
    | some n => decide (n ≤ 255)
    | none => false

/-- Modelled from the spec: a hostname naming the loopback interface —
the name `localhost`, an IPv4 address in the loopback block
`127.0.0.0/8`, or the IPv6 loopback `::1`.  This is the spec-side
reading of "whether the target host is a loopback address", to be
compared with the source-side test hard-coded in `postgresConnect`. -/
def isLoopbackHost (h : String) : Bool :=
  h == "localhost" || h == "::1" ||
  (match splitDotAux h.data [] with
   | [a, b, c, d] => a == "127" && isIPv4Octet b && isIPv4Octet c && isIPv4Octet d
   | _ => false)

/-- Deadlock error as raised by the database (`deadlock_detected`). -/
def deadlockDetected : PgError :=
  { code := some "40P01", message := "deadlock detected" }

/-- Statement-timeout error (`query_canceled`), an example of a
non-deadlock server failure. -/
def statementTimeout : PgError :=
  { code := some "57014", message := "canceling statement due to statement timeout" }

/-- Connection failure without a SQLSTATE code, as thrown by the driver
when the server is unreachable. -/
def connRefused : PgError :=
  { code := none, message := "connection refused" }

/-- Closed form of the state committed by a successful provisioning
run over an arbitrary prior state `s`: both namespaces dropped (taking
their tables with them) and recreated, the search path set, the vector
extension present, and the three tables recreated empty. -/
def provisionedState (s : DbState) : DbState :=
  { schemas :=
      ((s.schemas.filter (fun m => decide (m ≠ "auth"))).filter
        (fun m => decide (m ≠ "test")) ++ ["auth"]) ++ ["test"]
    tables :=
      ((((s.tables.filter (fun t => decide (t.schemaName ≠ "auth"))).filter
          (fun t => decide (t.schemaName ≠ "test")))
        ++ [{ schemaName := "auth", spec := usersTableSpec, rows := [] }])
        ++ [{ schemaName := "auth", spec := contentTableSpec, rows := [] }])
        ++ [{ schemaName := "test", spec := documentsTableSpec, rows := [] }]
    searchPath := ["auth", "test", "public"]
    extensions := if "vector" ∈ s.extensions then s.extensions else s.extensions ++ ["vector"]
    sessionReplicationRole := s.sessionReplicationRole }

/-- State left by a fully successful cleanup run: the replication role
has been set to `replica` and back to the default, and every table in
the truncation closure of the three listed tables has lost its rows. -/
def cleanedState (s : DbState) : DbState :=
  { s with
    sessionReplicationRole := .origin
    tables := s.tables.map (fun t =>
      if tableKey t ∈ truncateClosure s.tables cleanupTargets then { t with rows := [] } else t) }


/-- A sample prior state: empty server with only the `public`
schema. -/
def emptyDb : DbState :=
  { schemas := ["public"]
    tables := []
    searchPath := ["public"]
    extensions := []
    sessionReplicationRole := .origin }

/-- A sample row of `auth.users` (id, email, username, created_at,
updated_at, profile_image_url). -/
def userRowA : Row :=
  [some "00000000-0000-0000-0000-000000000001", some "dup@example.com", none,
   some "2024-01-01T00:00:00Z", some "2024-01-01T00:00:00Z", none]

/-- A second sample row of `auth.users` with a fresh id but the same
email as `userRowA`. -/
def userRowB : Row :=
  [some "00000000-0000-0000-0000-000000000002", some "dup@example.com", none,
   some "2024-01-02T00:00:00Z", some "2024-01-02T00:00:00Z", none]

/-- A sample state left behind by an earlier test session whose cleanup
was skipped: the provisioned tables exist and `auth.users` still holds
a row written by that session. -/
def dirtyDb : DbState :=
  { schemas := ["public", "auth", "test"]
    tables :=
      [ { schemaName := "auth", spec := usersTableSpec, rows := [userRowA] }
      , { schemaName := "auth", spec := contentTableSpec, rows := [] }
      , { schemaName := "test", spec := documentsTableSpec, rows := [] } ]
    searchPath := ["auth", "test", "public"]
    extensions := ["vector"]
    sessionReplicationRole := .origin }

/-- Failure environment whose first statement dies with a deadlock
(for example the `DROP SCHEMA` deadlocking against a concurrent
provisioning attempt). -/
def envDeadlockFirst : StmtEnv := fun k => if k = 0 then some deadlockDetected else none

/-- Failure environment whose first statement dies with a statement
timeout, a non-deadlock server error. -/
def envTimeoutFirst : StmtEnv := fun k => if k = 0 then some statementTimeout else none


/-- Tables surviving the two schema drops live in neither `auth` nor
`test`, so no `auth` table is among them. -/
theorem no_auth_in_filtered (l : List Table) (nm : String) :
    (∃ x ∈ l, (¬x.schemaName = "test" ∧ ¬x.schemaName = "auth") ∧
      x.schemaName = "auth" ∧ x.spec.name = nm) ↔ False := by
  constructor
  · rintro ⟨x, -, ⟨-, hne⟩, he, -⟩; exact hne he
  · exact False.elim

/-- Tables surviving the two schema drops live in neither `auth` nor
`test`, so no `test` table is among them. -/
theorem no_test_in_filtered (l : List Table) (nm : String) :
    (∃ x ∈ l, (¬x.schemaName = "test" ∧ ¬x.schemaName = "auth") ∧
      x.schemaName = "test" ∧ x.spec.name = nm) ↔ False := by
  constructor
  · rintro ⟨x, -, ⟨hne, -⟩, he, -⟩; exact hne he
  · exact False.elim

/-- The failure-free provisioning run succeeds from every prior state
and commits exactly `provisionedState s`. -/
theorem execStmtsList_provision (s : DbState) :
    execStmtsList provisionStmts s = .ok (provisionedState s) := by
  by_cases hv : "vector" ∈ s.extensions <;>
    simp [provisionStmts, SETUP_STATEMENTS.createSchemas, SETUP_STATEMENTS.createTables,
      execStmtsList, execStmt, provisionedState, hv, List.mem_append, List.mem_filter,
      tableKeyIs, List.any_eq_true, usersTableSpec, contentTableSpec, documentsTableSpec,
      no_auth_in_filtered, no_test_in_filtered]

/-- A run that succeeds under a failure environment took the `none`
branch at every statement, so it coincides with the failure-free
run. -/
theorem execStmtsEnv_ok_pure :
    ∀ (stmts : List Stmt) (env : StmtEnv) (k : Nat) (s s2 : DbState),
    execStmtsEnv env k stmts s = .ok s2 → execStmtsList stmts s = .ok s2 := by
  intro stmts
  induction stmts with
  | nil =>
    intro env k s s2 h
    simpa [execStmtsEnv, execStmtsList] using h
  | cons st rest ih =>
    intro env k s s2 h
    cases henv : env k with
    | some e => simp [execStmtsEnv, stepEnv, henv] at h
    | none =>
      simp only [execStmtsEnv, stepEnv, henv] at h
      cases hex : execStmt st s with
      | ok s3 =>
        rw [hex] at h
        simp only [execStmtsList, hex]
        exact ih env (k + 1) s3 s2 h
      | error e => simp [hex] at h

/-- A successful overall result of the retry wrapper is the outcome of
one of the attempts. -/
theorem withDatabaseLock_ok_result {α : Type} :
    ∀ (outs : List (Except PgError α)) (draws : List ℚ) (a : α) (ds : List ℚ),
    withDatabaseLock outs draws = some (.ok a, ds) → Except.ok a ∈ outs := by
  intro outs
  induction outs with
  | nil => intro draws a ds h; simp [withDatabaseLock] at h
  | cons o rest ih =>
    intro draws a ds h
    cases o with
    | ok b =>
      simp only [withDatabaseLock, Option.some.injEq, Prod.mk.injEq] at h
      rw [h.1]
      exact List.mem_cons_self _ _
    | error e =>
      simp only [withDatabaseLock] at h
      by_cases hc : e.code = some "40P01"
      · rw [if_pos hc] at h
        cases draws with
        | nil => simp at h
        | cons r rs =>
          cases hw : withDatabaseLock rest rs with
          | none => simp [hw] at h
          | some p =>
            obtain ⟨res, ds2⟩ := p
            simp only [hw, Option.some.injEq, Prod.mk.injEq] at h
            exact List.mem_cons_of_mem _ (ih rs a ds2 (by rw [hw, h.1]))
      · rw [if_neg hc] at h
        simp at h

/-- A provisioning call that hands back a database handle committed
exactly the freshly provisioned state. -/
theorem createTestDatabase_ok (envs : List StmtEnv) (draws : List ℚ) (testId : String)
    (s s2 : DbState) (ds : List ℚ)
    (h : (createTestDatabase envs draws testId s).result = some (.ok s2, ds)) :
    s2 = provisionedState s := by
  have hmem := withDatabaseLock_ok_result _ draws s2 ds (by simpa [createTestDatabase] using h)
  obtain ⟨env, -, heq⟩ := List.mem_map.1 hmem
  have henv : execStmtsEnv env 0 provisionStmts s = .ok s2 := by
    unfold sqlBegin at heq
    cases hex : execStmtsEnv env 0 provisionStmts s with
    | ok s3 =>
      simp only [hex, Except.ok.injEq] at heq
      rw [heq]
    | error e => simp [hex] at heq
  have hp := execStmtsEnv_ok_pure provisionStmts env 0 s s2 henv
  rw [execStmtsList_provision s] at hp
  exact (Except.ok.inj hp).symm

/-- Tables surviving the two schema drops match no lookup in the
`auth` or `test` schema. -/
theorem find?_filtered_none (l : List Table) (sch nm : String)
    (hsch : sch = "auth" ∨ sch = "test") :
    ((l.filter (fun t => decide (t.schemaName ≠ "auth"))).filter
      (fun t => decide (t.schemaName ≠ "test"))).find? (tableKeyIs sch nm) = none := by
  apply List.find?_eq_none.2
  intro x hx
  have hmem := List.mem_filter.1 hx
  have h2 := hmem.2
  have h1 := (List.mem_filter.1 hmem.1).2
  simp only [decide_eq_true_eq] at h1 h2
  simp only [tableKeyIs, decide_eq_true_eq]
  rintro ⟨he, -⟩
  rcases hsch with rfl | rfl
  · exact h1 he
  · exact h2 he

/-- The provisioned state contains `auth.users` with its declared
shape and no rows. -/
theorem lookupTable_provisioned_users (s : DbState) :
    lookupTable (provisionedState s) "auth" "users" =
      some { schemaName := "auth", spec := usersTableSpec, rows := [] } := by
  simp only [lookupTable, provisionedState]
  rw [List.find?_append, List.find?_append, List.find?_append,
    find?_filtered_none _ _ _ (Or.inl rfl)]
  simp [List.find?, tableKeyIs, usersTableSpec]

/-- The provisioned state contains `auth.content` with its declared
shape and no rows. -/
theorem lookupTable_provisioned_content (s : DbState) :
    lookupTable (provisionedState s) "auth" "content" =
      some { schemaName := "auth", spec := contentTableSpec, rows := [] } := by
  simp only [lookupTable, provisionedState]
  rw [List.find?_append, List.find?_append, List.find?_append,
    find?_filtered_none _ _ _ (Or.inl rfl)]
  simp [List.find?, tableKeyIs, usersTableSpec, contentTableSpec]

/-- The provisioned state contains `test.documents` with its declared
shape and no rows. -/
theorem lookupTable_provisioned_documents (s : DbState) :
    lookupTable (provisionedState s) "test" "documents" =
      some { schemaName := "test", spec := documentsTableSpec, rows := [] } := by
  simp only [lookupTable, provisionedState]
  rw [List.find?_append, List.find?_append, List.find?_append,
    find?_filtered_none _ _ _ (Or.inr rfl)]
  simp [List.find?, tableKeyIs, usersTableSpec, contentTableSpec, documentsTableSpec]

/-- The truncation closure keeps everything it starts from. -/
theorem mem_truncClosureAux (tables : List Table) :
    ∀ (n : Nat) (acc : List (String × String)) (x : String × String),
    x ∈ acc → x ∈ truncClosureAux tables n acc := by
  intro n
  induction n with
  | zero => intro acc x hx; simpa [truncClosureAux] using hx
  | succ n ih =>
    intro acc x hx
    simp only [truncClosureAux]
    by_cases he : (referencingTables tables acc).isEmpty
    · rw [if_pos he]; exact hx
    · rw [if_neg he]; exact ih _ x (List.mem_append_left _ hx)

/-- Every listed truncation target lies in the truncation closure. -/
theorem mem_truncateClosure (tables : List Table) (targets : List (String × String))
    (x : String × String) (hx : x ∈ targets) : x ∈ truncateClosure tables targets :=
  mem_truncClosureAux tables tables.length targets x hx

/-- Applying the truncation map to a table list empties the rows of
every present table whose name lies in the closure. -/
theorem find?_map_trunc (l : List Table) (cl : List (String × String)) (sch nm : String)
    (hcl : (sch, nm) ∈ cl) (hpres : l.any (tableKeyIs sch nm) = true) :
    ((l.map (fun t => if tableKey t ∈ cl then { t with rows := [] } else t)).find?
      (tableKeyIs sch nm)).map Table.rows = some [] := by
  have hfun : tableKeyIs sch nm ∘ (fun t => if tableKey t ∈ cl then { t with rows := [] } else t)
      = tableKeyIs sch nm := by
    funext t
    simp only [Function.comp_apply]
    by_cases hmem : tableKey t ∈ cl
    · rw [if_pos hmem]; simp [tableKeyIs]
    · rw [if_neg hmem]
  rw [List.find?_map, hfun]
  have hsome : (l.find? (tableKeyIs sch nm)).isSome :=
    List.find?_isSome.2 (by simpa [List.any_eq_true] using hpres)
  obtain ⟨t0, ht0⟩ := Option.isSome_iff_exists.1 hsome
  rw [ht0]
  have hp := List.find?_some ht0
  simp only [tableKeyIs, decide_eq_true_eq] at hp
  have hkey : tableKey t0 ∈ cl := by
    simpa [tableKey, hp.1, hp.2] using hcl
  simp [hkey]

/-- Under no injected failures and with the three listed tables
present, cleanup runs all three statements and returns the cleaned
state with nothing logged. -/
theorem cleanup_noFail (env : StmtEnv) (s : DbState)
    (h0 : env 0 = none) (h1 : env 1 = none) (h2 : env 2 = none)
    (hcond : cleanupTargets.all (fun q => s.tables.any (tableKeyIs q.1 q.2)) = true) :
    cleanup env s = (cleanedState s, none) := by
  simp only [cleanup, cleanupStmts, execStmtsProgress, stepEnv, h0, h1, h2, execStmt,
    hcond, if_true, cleanedState]

/-- If the truncation statement dies — by an injected server error or
because a listed table is missing — cleanup stops there: the role is
left at `replica`, the restore statement is never issued, and the error
is logged rather than thrown. -/
theorem cleanup_truncDies (env : StmtEnv) (s : DbState) (e : PgError)
    (h0 : env 0 = none)
    (h1 : stepEnv env 1 (.truncateCascade cleanupTargets)
      { s with sessionReplicationRole := .replica } = .error e) :
    cleanup env s = ({ s with sessionReplicationRole := .replica }, some e) := by
  have hstep0 : stepEnv env 0 (.setSessionReplicationRole .replica) s
      = .ok { s with sessionReplicationRole := .replica } := by
    simp [stepEnv, h0, execStmt]
  simp only [cleanup, cleanupStmts, execStmtsProgress, hstep0, h1]

/-- Rows of a listed, present table after a successful cleanup are
empty. -/
theorem rowsOf_cleaned (s : DbState) (sch nm : String) (hmem : (sch, nm) ∈ cleanupTargets)
    (hpres : hasTable s sch nm = true) :
    rowsOf (cleanedState s) sch nm = some [] := by
  simp only [rowsOf, lookupTable, cleanedState]
  exact find?_map_trunc s.tables _ sch nm (mem_truncateClosure _ _ _ hmem)
    (by simpa [hasTable] using hpres)


/-- Claim C1: for every prior database state — including state left by
earlier sessions whose cleanup was skipped or failed — once a call to
`createTestDatabase` returns a handle, the tables `auth.users`,
`auth.content` and `test.documents` exist with their declared shapes
and contain no rows; in particular no data written before the call is
visible in the post-provision, pre-write state. -/
theorem claim_C1_provision_isolation (envs : List StmtEnv) (draws : List ℚ)
    (testId : String) (s s2 : DbState) (ds : List ℚ)
    (h : (createTestDatabase envs draws testId s).result = some (.ok s2, ds)) :
    lookupTable s2 "auth" "users"
        = some { schemaName := "auth", spec := usersTableSpec, rows := [] } ∧
    lookupTable s2 "auth" "content"
        = some { schemaName := "auth", spec := contentTableSpec, rows := [] } ∧
    lookupTable s2 "test" "documents"
        = some { schemaName := "test", spec := documentsTableSpec, rows := [] } := by
  obtain rfl := createTestDatabase_ok envs draws testId s s2 ds h
  exact ⟨lookupTable_provisioned_users s, lookupTable_provisioned_content s,
    lookupTable_provisioned_documents s⟩

/-- Witness for claim C1 at a concrete dirty state: a session left a
row in `auth.users` and skipped cleanup; provisioning succeeds and the
three tables come back shaped as declared and empty. -/
theorem claim_C1_witness :
    (createTestDatabase [envNone] [] "w" dirtyDb).result
        = some (.ok (provisionedState dirtyDb), []) ∧
    (lookupTable (provisionedState dirtyDb) "auth" "users"
        = some { schemaName := "auth", spec := usersTableSpec, rows := [] } ∧
      lookupTable (provisionedState dirtyDb) "auth" "content"
        = some { schemaName := "auth", spec := contentTableSpec, rows := [] } ∧
      lookupTable (provisionedState dirtyDb) "test" "documents"
        = some { schemaName := "test", spec := documentsTableSpec, rows := [] }) :=
  ⟨by decide,
   claim_C1_provision_isolation [envNone] [] "w" dirtyDb (provisionedState dirtyDb) []
     (by decide)⟩

/-- Counterexample to claim C2 as frozen: `Math.random()` ranges over
`[0, 1)` and may return 0, in which case the delay applied before the
retry is `0 * 1000 = 0` milliseconds — not nonzero — while the wrapper
still returns the success on attempt K+1 (here K = 1). -/
theorem claim_C2_counterexample :
    withDatabaseLock [(.error deadlockDetected : Except PgError Nat), .ok 7] [(0 : ℚ)]
        = some (.ok 7, [0]) ∧
    ¬ (∀ d ∈ [(0 : ℚ)], d ≠ 0) := by
  constructor
  · simp [withDatabaseLock, deadlockDetected]
  · simp

/-- Claim C2 as amended: an operation failing with the deadlock code
exactly K times before succeeding makes the wrapper return the success
on attempt K+1, with one randomized delay applied before each of the K
retries; each delay equals `draw * 1000` milliseconds, is nonnegative,
is below 1000 ms (about one second), and is nonzero exactly when the
corresponding random draw is nonzero. -/
theorem claim_C2_retry_convergence {α : Type} (a : α) (es : List PgError) (draws : List ℚ)
    (hcode : ∀ e ∈ es, e.code = some "40P01")
    (hlen : draws.length = es.length)
    (hbound : ∀ r ∈ draws, 0 ≤ r ∧ r < 1) :
    withDatabaseLock (es.map Except.error ++ [Except.ok a]) draws
        = some (.ok a, draws.map (fun r => r * 1000)) ∧
    (draws.map (fun r => r * 1000)).length = es.length ∧
    ∀ r ∈ draws, 0 ≤ r * 1000 ∧ r * 1000 < 1000 ∧ (r ≠ 0 → r * 1000 ≠ 0) := by
  refine ⟨?_, by simpa using hlen, ?_⟩
  · induction es generalizing draws with
    | nil =>
      rw [List.length_eq_zero.1 (hlen.trans rfl)]
      simp [withDatabaseLock]
    | cons e es ih =>
      cases draws with
      | nil => simp at hlen
      | cons r rs =>
        have hc := hcode e (List.mem_cons_self _ _)
        simp only [List.map_cons, List.cons_append, withDatabaseLock, if_pos hc,
          List.append_eq]
        rw [ih rs (fun e2 he2 => hcode e2 (List.mem_cons_of_mem _ he2))
          (by simpa using hlen) (fun r2 hr2 => hbound r2 (List.mem_cons_of_mem _ hr2))]
  · intro r hr
    obtain ⟨h0, h1⟩ := hbound r hr
    refine ⟨by positivity, by nlinarith, fun hne => ?_⟩
    exact mul_ne_zero hne (by norm_num)

/-- Witness for the amended claim C2: one deadlock failure, then
success, with the (legitimately zero) draw 0. -/
theorem claim_C2_witness :
    withDatabaseLock ([deadlockDetected].map Except.error ++ [Except.ok (7 : Nat)]) [(0 : ℚ)]
        = some (.ok 7, [(0 : ℚ)].map (fun r => r * 1000)) :=
  (claim_C2_retry_convergence 7 [deadlockDetected] [0] (by decide) (by decide) (by decide)).1

/-- Claim C3: the wrapper retries the whole operation from scratch if
and only if the failure carries the deadlock code `"40P01"`; any other
failure — different code or no code at all — propagates at once, with
no retry and no delay. -/
theorem claim_C3_deadlock_only_retry {α : Type} :
    (∀ (e : PgError) (rest : List (Except PgError α)) (draws : List ℚ),
      e.code ≠ some "40P01" →
      withDatabaseLock (Except.error e :: rest) draws = some (.error e, [])) ∧
    (∀ (e : PgError) (rest : List (Except PgError α)) (r : ℚ) (rs : List ℚ),
      e.code = some "40P01" →
      withDatabaseLock (Except.error e :: rest) (r :: rs)
        = (withDatabaseLock rest rs).map (fun p => (p.1, r * 1000 :: p.2))) := by
  constructor
  · intro e rest draws hne
    cases draws <;> simp [withDatabaseLock, hne]
  · intro e rest r rs hc
    simp only [withDatabaseLock, if_pos hc]
    cases withDatabaseLock rest rs with
    | none => simp
    | some p => obtain ⟨res, ds⟩ := p; simp

/-- Witness for claim C3: a statement-timeout failure propagates
immediately with no delay; a deadlock failure recurses into the
remaining attempts with its delay prepended. -/
theorem claim_C3_witness :
    withDatabaseLock [(Except.error statementTimeout : Except PgError Nat), .ok 5] [(0 : ℚ)]
        = some (.error statementTimeout, []) ∧
    withDatabaseLock [(Except.error deadlockDetected : Except PgError Nat), .ok 5] [(0 : ℚ)]
        = (withDatabaseLock [(Except.ok 5 : Except PgError Nat)] []).map
            (fun p => (p.1, (0 : ℚ) * 1000 :: p.2)) :=
  ⟨claim_C3_deadlock_only_retry.1 statementTimeout [.ok 5] [0] (by decide),
   claim_C3_deadlock_only_retry.2 deadlockDetected [.ok 5] 0 [] (by decide)⟩

/-- Claim C4, evaluated at the failing input: the users table as
provisioned by the harness DDL accepts a second row with a duplicate
email (its DDL has no UNIQUE constraint on `email` or `username`),
whereas the application schema `db/schema.ts` that the harness imports
— whose users table declares both unique — rejects the same insert
with a unique violation. -/
theorem claim_C4_email_not_unique :
    insertRow { schemaName := "auth", spec := usersTableSpec, rows := [] } userRowA
        = .ok { schemaName := "auth", spec := usersTableSpec, rows := [userRowA] } ∧
    insertRow { schemaName := "auth", spec := usersTableSpec, rows := [userRowA] } userRowB
        = .ok { schemaName := "auth", spec := usersTableSpec, rows := [userRowA, userRowB] } ∧
    insertRow { schemaName := "auth", spec := drizzleUsersSpec, rows := [userRowA] } userRowB
        = .error { code := some "23505", message := "unique constraint violation" } := by
  refine ⟨by decide, by decide, by decide⟩

/-- Counterexample to claim C5 as frozen: when the liveness check on a
fresh pool fails, the module variable is *not* left unset — it was
assigned before the check and the catch block only logs and rethrows —
and the next call returns that same failed pool on the fast path
instead of constructing a fresh one. -/
theorem claim_C5_counterexample :
    (getGlobalPool "localhost" (some connRefused) none).result = .error connRefused ∧
    (getGlobalPool "localhost" (some connRefused) none).globalPool
        = some (postgresConnect "localhost") ∧
    (getGlobalPool "localhost" (some connRefused)
        (some (postgresConnect "localhost"))).result = .ok (postgresConnect "localhost") := by
  exact ⟨rfl, rfl, rfl⟩

/-- Claim C5 as amended: if the liveness check fails, the error
propagates to the caller, but the global pool reference has already
been set to the just-constructed pool and is not reset; every
subsequent call returns that pool on the fast path, without a liveness
check and without constructing a fresh pool. -/
theorem claim_C5_liveness_failure (h : String) (e : PgError) :
    (getGlobalPool h (some e) none).result = .error e ∧
    (getGlobalPool h (some e) none).globalPool = some (postgresConnect h) ∧
    ∀ (liv : Option PgError) (p : Pool),
      (getGlobalPool h liv (some p)).result = .ok p ∧
      (getGlobalPool h liv (some p)).globalPool = some p :=
  ⟨rfl, rfl, fun _ _ => ⟨rfl, rfl⟩⟩

/-- Counterexample to claim C6 as frozen: a failing statement does not
always leave the caller without a handle.  Here the first statement of
the first attempt dies with the deadlock code, so that attempt's
transaction aborts — yet the locked wrapper retries and the call
returns a handle with no error propagated. -/
theorem claim_C6_counterexample :
    execStmtsEnv envDeadlockFirst 0 provisionStmts emptyDb = .error deadlockDetected ∧
    (createTestDatabase [envDeadlockFirst, envNone] [0] "t" emptyDb).result
        = some (.ok (provisionedState emptyDb), [0 * 1000]) := by
  constructor
  · decide
  · rfl

/-- Claim C6 as amended: the provisioning DDL runs inside one
transaction inside the locked wrapper; any statement failure aborts
that transaction, leaving the caller-visible state exactly as before
(no partial schema); a failure with a non-deadlock error makes the
call return that error with no handle and no retry; a failure with the
deadlock code instead makes the wrapper retry the whole provisioning
from scratch after one backoff. -/
theorem claim_C6_transactional_provisioning :
    (∀ (env : StmtEnv) (s : DbState) (e : PgError),
      execStmtsEnv env 0 provisionStmts s = .error e →
      sqlBegin env provisionStmts s = (.error e, s)) ∧
    (∀ (env : StmtEnv) (envs : List StmtEnv) (draws : List ℚ) (testId : String)
        (s : DbState) (e : PgError),
      (sqlBegin env provisionStmts s).1 = .error e →
      e.code ≠ some "40P01" →
      (createTestDatabase (env :: envs) draws testId s).result = some (.error e, []) ∧
      (createTestDatabase (env :: envs) draws testId s).dbState = s) ∧
    (∀ (env : StmtEnv) (envs : List StmtEnv) (r : ℚ) (rs : List ℚ) (testId : String)
        (s : DbState) (e : PgError),
      (sqlBegin env provisionStmts s).1 = .error e →
      e.code = some "40P01" →
      (createTestDatabase (env :: envs) (r :: rs) testId s).result
        = (withDatabaseLock (envs.map (fun env2 => (sqlBegin env2 provisionStmts s).1)) rs).map
            (fun p => (p.1, r * 1000 :: p.2))) := by
  refine ⟨?_, ?_, ?_⟩
  · intro env s e h
    simp [sqlBegin, h]
  · intro env envs draws testId s e h hne
    constructor
    · simp only [createTestDatabase, List.map_cons, h]
      cases draws <;> simp [withDatabaseLock, hne]
    · simp only [createTestDatabase, List.map_cons, h]
      cases draws <;> simp [withDatabaseLock, hne]
  · intro env envs r rs testId s e h hc
    simp only [createTestDatabase, List.map_cons, h, withDatabaseLock, if_pos hc]
    cases hw : withDatabaseLock (envs.map (fun env2 => (sqlBegin env2 provisionStmts s).1)) rs with
    | none => simp
    | some p => obtain ⟨res, ds⟩ := p; simp

/-- Witness for the amended claim C6: a timeout on the first statement
aborts the transaction and the call propagates the timeout with no
handle and the state untouched; a deadlock on the first statement makes
the call retry. -/
theorem claim_C6_witness :
    sqlBegin envTimeoutFirst provisionStmts dirtyDb = (.error statementTimeout, dirtyDb) ∧
    (createTestDatabase [envTimeoutFirst] [] "w" dirtyDb).result
        = some (.error statementTimeout, []) ∧
    (createTestDatabase [envTimeoutFirst] [] "w" dirtyDb).dbState = dirtyDb ∧
    (createTestDatabase [envDeadlockFirst] [(0 : ℚ)] "w" dirtyDb).result
        = (withDatabaseLock ([] : List (Except PgError DbState)) []).map
            (fun p => (p.1, (0 : ℚ) * 1000 :: p.2)) :=
  ⟨claim_C6_transactional_provisioning.1 envTimeoutFirst dirtyDb statementTimeout (by decide),
   (claim_C6_transactional_provisioning.2.1 envTimeoutFirst [] [] "w" dirtyDb statementTimeout
      (by decide) (by decide)).1,
   (claim_C6_transactional_provisioning.2.1 envTimeoutFirst [] [] "w" dirtyDb statementTimeout
      (by decide) (by decide)).2,
   by
     have := claim_C6_transactional_provisioning.2.2 envDeadlockFirst [] 0 [] "w" dirtyDb
       deadlockDetected (by decide) (by decide)
     simpa using this⟩

/-- Claim C7: every invocation of the cleanup closure issues, in
order, the disable-enforcement statement, the cascading truncation of
`auth.content`, `auth.users` and `test.documents`, and the restore
statement; when nothing fails the provisioned tables are left empty
with the role restored to its default; and the closure never rejects —
a thrown error of the body is returned as a logged value together with
the state reached, never propagated. -/
theorem claim_C7_cleanup_behaviour (env : StmtEnv) (s : DbState)
    (h0 : env 0 = none) (h1 : env 1 = none) (h2 : env 2 = none)
    (hc : hasTable s "auth" "content" = true)
    (hu : hasTable s "auth" "users" = true)
    (hd : hasTable s "test" "documents" = true) :
    cleanupStmts =
      [ .setSessionReplicationRole .replica
      , .truncateCascade cleanupTargets
      , .setSessionReplicationRole .origin ] ∧
    cleanup env s = (cleanedState s, none) ∧
    (cleanedState s).sessionReplicationRole = .origin ∧
    rowsOf (cleanedState s) "auth" "content" = some [] ∧
    rowsOf (cleanedState s) "auth" "users" = some [] ∧
    rowsOf (cleanedState s) "test" "documents" = some [] ∧
    (∀ (env2 : StmtEnv) (s2 s3 : DbState) (e : PgError),
      execStmtsProgress env2 0 cleanupStmts s2 = (s3, some e) →
      cleanup env2 s2 = (s3, some e)) := by
  have hcond : cleanupTargets.all (fun q => s.tables.any (tableKeyIs q.1 q.2)) = true := by
    simp only [cleanupTargets, List.all_cons, List.all_nil, Bool.and_true, Bool.and_eq_true]
    exact ⟨hc, hu, hd⟩
  refine ⟨rfl, cleanup_noFail env s h0 h1 h2 hcond, rfl,
    rowsOf_cleaned s "auth" "content" (by decide) hc,
    rowsOf_cleaned s "auth" "users" (by decide) hu,
    rowsOf_cleaned s "test" "documents" (by decide) hd,
    fun env2 s2 s3 e he => by simpa [cleanup] using he⟩

/-- Witness for claim C7 at the dirty state: cleanup empties all three
tables, restores the role and logs nothing. -/
theorem claim_C7_witness :
    cleanup envNone dirtyDb = (cleanedState dirtyDb, none) ∧
    (cleanedState dirtyDb).sessionReplicationRole = .origin ∧
    rowsOf (cleanedState dirtyDb) "auth" "users" = some [] :=
  ⟨(claim_C7_cleanup_behaviour envNone dirtyDb rfl rfl rfl (by decide) (by decide)
      (by decide)).2.1,
   (claim_C7_cleanup_behaviour envNone dirtyDb rfl rfl rfl (by decide) (by decide)
      (by decide)).2.2.1,
   (claim_C7_cleanup_behaviour envNone dirtyDb rfl rfl rfl (by decide) (by decide)
      (by decide)).2.2.2.2.1⟩

/-- Counterexample to claim C8 as frozen: `127.0.0.1` and `127.0.0.2`
are both loopback addresses, yet the accessor disables SSL only for
the first — the TLS mode is keyed on two literal hostnames, not on
being a loopback address. -/
theorem claim_C8_counterexample :
    isLoopbackHost "127.0.0.1" = true ∧
    (postgresConnect "127.0.0.1").ssl = SslMode.disabled ∧
    isLoopbackHost "127.0.0.2" = true ∧
    (postgresConnect "127.0.0.2").ssl = SslMode.rejectUnauthorizedFalse := by
  decide

/-- Claim C8 as amended: the accessor selects the TLS mode solely by
whether the hostname is the literal string `localhost` or `127.0.0.1`;
exactly those two get SSL disabled, and every other hostname —
loopback (such as `::1` or `127.0.0.2`) or remote — gets SSL with
certificate verification not required. -/
theorem claim_C8_ssl_mode (h : String) :
    ((postgresConnect h).ssl = SslMode.disabled ↔ (h = "localhost" ∨ h = "127.0.0.1")) ∧
    ((postgresConnect h).ssl = SslMode.rejectUnauthorizedFalse
      ↔ ¬ (h = "localhost" ∨ h = "127.0.0.1")) := by
  by_cases hl : h = "localhost" ∨ h = "127.0.0.1"
  · have hb : (h == "localhost" || h == "127.0.0.1") = true := by
      rcases hl with rfl | rfl <;> simp
    simp [postgresConnect, hb, hl]
  · have hb : (h == "localhost" || h == "127.0.0.1") = false := by
      rcases not_or.1 hl with ⟨hn1, hn2⟩
      simp [hn1, hn2]
    simp [postgresConnect, hb, hl]

/-- Claim C9: when the first cleanup statement succeeds and the
truncation then dies — here modelled by any injected server error or a
missing listed table — the closure returns normally with the error
only logged, the restore statement is never reached, and the session
is left with `session_replication_role = replica`, that is with
referential-integrity and trigger enforcement disabled for everything
that follows on the shared single-connection pool. -/
theorem claim_C9_failed_cleanup_leaves_replica (env : StmtEnv) (s : DbState) (e : PgError)
    (h0 : env 0 = none)
    (h1 : stepEnv env 1 (.truncateCascade cleanupTargets)
      { s with sessionReplicationRole := .replica } = .error e) :
    cleanup env s = ({ s with sessionReplicationRole := .replica }, some e) ∧
    (cleanup env s).1.sessionReplicationRole = .replica ∧
    (cleanup env s).2 = some e := by
  have hmain := cleanup_truncDies env s e h0 h1
  exact ⟨hmain, by rw [hmain], by rw [hmain]⟩

/-- Witness for claim C9: with no table provisioned the truncation
itself fails (`relation does not exist`); cleanup returns with the
error logged and the role still `replica`. -/
theorem claim_C9_witness :
    cleanup envNone emptyDb
        = ({ emptyDb with sessionReplicationRole := .replica },
           some { code := some "42P01", message := "relation does not exist" }) ∧
    (cleanup envNone emptyDb).1.sessionReplicationRole = .replica :=
  ⟨(claim_C9_failed_cleanup_leaves_replica envNone emptyDb
      { code := some "42P01", message := "relation does not exist" } rfl (by decide)).1,
   (claim_C9_failed_cleanup_leaves_replica envNone emptyDb
      { code := some "42P01", message := "relation does not exist" } rfl (by decide)).2.1⟩

/-- Claim C10: the `testId` argument does not influence the database:
the call result (handle or error, with the backoff delays) and the
resulting database state agree for any two identifiers under the same
environment, draws and prior state — the constant statement sequence
`provisionStmts` is issued either way, and the identifier reaches only
the log line.  Since this holds for all identifier strings it covers
the defaulted `Date.now().toString()` value as well. -/
theorem claim_C10_testId_noninterference (envs : List StmtEnv) (draws : List ℚ)
    (id1 id2 : String) (s : DbState) :
    (createTestDatabase envs draws id1 s).result
        = (createTestDatabase envs draws id2 s).result ∧
    (createTestDatabase envs draws id1 s).dbState
        = (createTestDatabase envs draws id2 s).dbState ∧
    (createTestDatabase envs draws id1 s).log
        = ["Starting test database setup for test " ++ id1 ++ "..."] :=
  ⟨rfl, rfl, rfl⟩
